import Mathlib

/-!
Verification of the MCP proxy's routing, filtering, interceptor and
lifecycle logic against its specification.

The Python source (src/mcp_proxy/proxy.py, src/mcp_proxy/python_mcp.py)
is shallowly embedded below.  Python values that can flow through the
JSON-RPC paths are represented by the `Json` inductive; Python `None`
is represented by `Json.null` (this matches the program, where
`json.loads` maps JSON `null` to `None`, so an absent key and a key
bound to `null` are indistinguishable through `dict.get`).  Numbers
are modelled as integers (the claims only involve integral ids and
error codes).  A Python function that can raise an exception which is
not caught locally is modelled with `Except Unit`; `.error ()` means
an exception propagates to the per-connection handler, which breaks
the connection without writing anything.
-/

/-- JSON / Python values exchanged on the proxy's JSON-RPC paths. -/
inductive Json where
  | null
  | bool (b : Bool)
  | num (n : Int)
  | str (s : String)
  | arr (elems : List Json)
  | obj (fields : List (String × Json))

mutual

def Json.decEq : (a b : Json) → Decidable (a = b)
  | .null, .null => isTrue rfl
  | .bool x, .bool y =>
    if h : x = y then isTrue (by rw [h])
    else isFalse (by intro hh; injection hh; contradiction)
  | .num x, .num y =>
    if h : x = y then isTrue (by rw [h])
    else isFalse (by intro hh; injection hh; contradiction)
  | .str x, .str y =>
    if h : x = y then isTrue (by rw [h])
    else isFalse (by intro hh; injection hh; contradiction)
  | .arr xs, .arr ys =>
    match Json.decEqList xs ys with
    | isTrue h => isTrue (by rw [h])
    | isFalse h => isFalse (by intro hh; injection hh; contradiction)
  | .obj xs, .obj ys =>
    match Json.decEqObj xs ys with
    | isTrue h => isTrue (by rw [h])
    | isFalse h => isFalse (by intro hh; injection hh; contradiction)
  | .null, .bool _ => isFalse (fun h => Json.noConfusion h)
  | .null, .num _ => isFalse (fun h => Json.noConfusion h)
  | .null, .str _ => isFalse (fun h => Json.noConfusion h)
  | .null, .arr _ => isFalse (fun h => Json.noConfusion h)
  | .null, .obj _ => isFalse (fun h => Json.noConfusion h)
  | .bool _, .null => isFalse (fun h => Json.noConfusion h)
  | .bool _, .num _ => isFalse (fun h => Json.noConfusion h)
  | .bool _, .str _ => isFalse (fun h => Json.noConfusion h)
  | .bool _, .arr _ => isFalse (fun h => Json.noConfusion h)
  | .bool _, .obj _ => isFalse (fun h => Json.noConfusion h)
  | .num _, .null => isFalse (fun h => Json.noConfusion h)
  | .num _, .bool _ => isFalse (fun h => Json.noConfusion h)
  | .num _, .str _ => isFalse (fun h => Json.noConfusion h)
  | .num _, .arr _ => isFalse (fun h => Json.noConfusion h)
  | .num _, .obj _ => isFalse (fun h => Json.noConfusion h)
  | .str _, .null => isFalse (fun h => Json.noConfusion h)
  | .str _, .bool _ => isFalse (fun h => Json.noConfusion h)
  | .str _, .num _ => isFalse (fun h => Json.noConfusion h)
  | .str _, .arr _ => isFalse (fun h => Json.noConfusion h)
  | .str _, .obj _ => isFalse (fun h => Json.noConfusion h)
  | .arr _, .null => isFalse (fun h => Json.noConfusion h)
  | .arr _, .bool _ => isFalse (fun h => Json.noConfusion h)
  | .arr _, .num _ => isFalse (fun h => Json.noConfusion h)
  | .arr _, .str _ => isFalse (fun h => Json.noConfusion h)
  | .arr _, .obj _ => isFalse (fun h => Json.noConfusion h)
  | .obj _, .null => isFalse (fun h => Json.noConfusion h)
  | .obj _, .bool _ => isFalse (fun h => Json.noConfusion h)
  | .obj _, .num _ => isFalse (fun h => Json.noConfusion h)
  | .obj _, .str _ => isFalse (fun h => Json.noConfusion h)
  | .obj _, .arr _ => isFalse (fun h => Json.noConfusion h)

def Json.decEqList : (xs ys : List Json) → Decidable (xs = ys)
  | [], [] => isTrue rfl
  | [], _ :: _ => isFalse (fun h => List.noConfusion h)
  | _ :: _, [] => isFalse (fun h => List.noConfusion h)
  | x :: xs, y :: ys =>
    match Json.decEq x y with
    | isFalse h1 => isFalse (by intro hh; injection hh; contradiction)
    | isTrue h1 =>
      match Json.decEqList xs ys with
      | isTrue h2 => isTrue (by rw [h1, h2])
      | isFalse h2 => isFalse (by intro hh; injection hh; contradiction)

def Json.decEqObj : (xs ys : List (String × Json)) → Decidable (xs = ys)
  | [], [] => isTrue rfl
  | [], _ :: _ => isFalse (fun h => List.noConfusion h)
  | _ :: _, [] => isFalse (fun h => List.noConfusion h)
  | (k, v) :: xs, (k', v') :: ys =>
    if h1 : k = k' then
      match Json.decEq v v' with
      | isFalse h2 =>
        isFalse (by intro hh; injection hh with hp _; injection hp; contradiction)
      | isTrue h2 =>
        match Json.decEqObj xs ys with
        | isTrue h3 => isTrue (by rw [h1, h2, h3])
        | isFalse h3 => isFalse (by intro hh; injection hh; contradiction)
    else
      isFalse (by intro hh; injection hh with hp _; injection hp; contradiction)

end

instance : DecidableEq Json := Json.decEq

instance : DecidableEq (Except Unit Json) := fun a b =>
  match a, b with
  | .error u, .error v => isTrue (by cases u; cases v; rfl)
  | .ok x, .ok y =>
    if h : x = y then isTrue (by rw [h])
    else isFalse (by intro hh; injection hh; contradiction)
  | .error _, .ok _ => isFalse (fun h => Except.noConfusion h)
  | .ok _, .error _ => isFalse (fun h => Except.noConfusion h)

namespace Json

/-- Python truthiness of a value (`if x:`). -/
def truthy : Json → Bool
  | .null => false
  | .bool b => b
  | .num n => n != 0
  | .str s => s ≠ ""
  | .arr xs => !xs.isEmpty
  | .obj kvs => !kvs.isEmpty

end Json

/-- First-match lookup in an association list (Python `dict` access,
insertion ordered; Python dict keys are unique, and all the update
operations modelled below preserve first-match semantics). -/
def lookupKV {α : Type} : List (String × α) → String → Option α
  | [], _ => none
  | (k, v) :: rest, key => if k = key then some v else lookupKV rest key

/-- `d.get(key)` on a known dict: `None` (here `.null`) when absent. -/
def dgetKV (kvs : List (String × Json)) (k : String) : Json :=
  (lookupKV kvs k).getD .null

/-- `value.get(key)`: raises `AttributeError` unless `value` is a dict. -/
def dget (j : Json) (k : String) : Except Unit Json :=
  match j with
  | .obj kvs => .ok (dgetKV kvs k)
  | _ => .error ()

/-- `value.get(key, default)`: like `dget` but with an explicit default
for an absent key (a key bound to `null` still yields `null`). -/
def dgetD (j : Json) (k : String) (default : Json) : Except Unit Json :=
  match j with
  | .obj kvs => .ok ((lookupKV kvs k).getD default)
  | _ => .error ()

/-- `key in value` for the places the code applies it (`value` is a
dict or, on untaken branches, some other container). -/
def hasKeyJ (j : Json) (k : String) : Bool :=
  match j with
  | .obj kvs => (lookupKV kvs k).isSome
  | .arr xs => xs.contains (.str k)
  | _ => false

/-! ## Embedded (Python) MCP servers — src/mcp_proxy/python_mcp.py -/

/-- One registered tool of an embedded MCP server (`MCPTool`,
python_mcp.py lines 16-23).  `sigParams` models the declared
parameter names of the bound method
(`inspect.signature(tool.function).parameters`); `function` models the
method itself, taking the (already filtered) keyword-arguments dict
and returning the Python value, or raising (`.error`). -/
structure MCPTool where
  name : String
  description : String
  parameters : Json
  sigParams : List String
  function : Json → Except Unit Json

/-- `BaseMCP` (python_mcp.py lines 26-252): a name and the `_tools`
dict (tool name → tool, insertion ordered). -/
structure BaseMCP where
  name : String
  tools : List (String × MCPTool)

/-- `BaseMCP.get_tools` (python_mcp.py lines 241-252). -/
def BaseMCP.get_tools (mcp : BaseMCP) : Json :=
  .arr (mcp.tools.map (fun kv =>
    .obj [("name", .str kv.2.name),
          ("description", .str kv.2.description),
          ("inputSchema", kv.2.parameters)]))

/-- python_mcp.py lines 255-296: `expose_tool` is a module-level
function whose body is `setattr(func, ...); return func`; the
`call_tool` and `get_server_info` definitions that follow (lines
260-296) are indented inside `expose_tool` *after* its `return`
statement, so they never execute and are local to a function body in
any case.  Consequently `BaseMCP` instances have no `call_tool` and no
`get_server_info` attribute, and accessing either raises
`AttributeError`.  These two flags record that fact of the source. -/
def base_mcp_has_call_tool : Bool := false

/-- See `base_mcp_has_call_tool`: `get_server_info` is likewise dead
code inside `expose_tool`, so the attribute does not exist. -/
def base_mcp_has_get_server_info : Bool := false

/-- Python `in` on a list of strings (`tool_name in config.blacklist`):
only a string value can be a member; other values simply compare
unequal to every element. -/
def jsonMemStr (tool : Json) (l : List String) : Bool :=
  match tool with
  | .str s => l.contains s
  | _ => false

/-- Dict lookup keyed by strings when the key is an arbitrary Python
value (`self._tools[tool_name]` after `tool_name not in self._tools`):
a non-string key is simply absent. -/
def jlookupTools (tools : List (String × MCPTool)) : Json → Option MCPTool
  | .str s => lookupKV tools s
  | _ => none

/-- `str(result)` applied to a tool's return value (python_mcp.py line
371).  Faithful for the strings, integers, booleans and `None` that
the modelled tools return; list/dict results (unused by any claim) get
a fixed rendering rather than a full `repr`. -/
def pyStr : Json → String
  | .null => "None"
  | .bool true => "True"
  | .bool false => "False"
  | .num n => toString n
  | .str s => s
  | .arr _ => "[...]"
  | .obj _ => "{...}"

/-- Modelled from the dead code at python_mcp.py lines 260-288: the
`call_tool` body as written (look the tool up — raising `ValueError`
when unknown — filter the arguments down to the signature parameters,
call the function).  The running program never reaches this code (see
`base_mcp_has_call_tool`); it is kept to state what the spec's echo
scenario demands. -/
def BaseMCP.call_tool_dead_code (mcp : BaseMCP) (tool_name arguments : Json) :
    Except Unit Json :=
  match jlookupTools mcp.tools tool_name with
  | none => .error ()
  | some tool =>
    match arguments with
    | .obj kvs =>
      tool.function (.obj (kvs.filter (fun kv => tool.sigParams.contains kv.1)))
    | _ => .error ()

/-- `PythonMCPServer` (python_mcp.py lines 299-314) wraps a `BaseMCP`. -/
structure PythonMCPServer where
  mcp : BaseMCP

/-- `PythonMCPServer._create_error_response` (python_mcp.py lines
378-390): `None` (here `.null`) when the request had no id, otherwise
the JSON-RPC error object. -/
def py_create_error_response (request_id : Json) (code : Int) (message : String) : Json :=
  if request_id = .null then .null
  else
    .obj [("jsonrpc", .str "2.0"), ("id", request_id),
          ("error", .obj [("code", .num code), ("message", .str message)])]

/-- `PythonMCPServer._handle_initialize` (python_mcp.py lines 338-349)
evaluates `self.mcp.get_server_info()`; the attribute does not exist
(see `base_mcp_has_get_server_info`), so the call raises
`AttributeError`, which is not caught locally. -/
def py_handle_initialize_request (_request_id : Json) : Except Unit Json :=
  .error ()

/-- `PythonMCPServer._handle_tools_list` (python_mcp.py lines 351-354). -/
def py_handle_tools_list (ps : PythonMCPServer) (request_id : Json) : Json :=
  .obj [("jsonrpc", .str "2.0"), ("id", request_id),
        ("result", .obj [("tools", ps.mcp.get_tools)])]

/-- `PythonMCPServer._handle_tool_call` (python_mcp.py lines 356-376).
`params.get` raises when `params` is not a dict (that exception
escapes to `handle_request`).  Otherwise: a falsy tool name yields
-32602; the `try` block then evaluates `self.mcp.call_tool(...)`,
whose attribute access raises `AttributeError` (dead code, see
`base_mcp_has_call_tool`), caught by the local `except`, producing the
-32000 "Tool execution failed" error.  The message's `{e}`
interpolation is rendered as a fixed string. -/
def py_handle_tool_call (_ps : PythonMCPServer) (request_id : Json) (params : Json) :
    Except Unit Json :=
  match dget params "name", dgetD params "arguments" (.obj []) with
  | .ok tool_name, .ok _arguments =>
    if !tool_name.truthy then
      .ok (py_create_error_response request_id (-32602) "Missing tool name")
    else
      .ok (py_create_error_response request_id (-32000)
        "Tool execution failed: AttributeError: no attribute call_tool")
  | _, _ => .error ()

/-- Modelled from the spec (§4.3 embedded backend; scenario 1) and the
dead `call_tool` code: what `_handle_tool_call` would compute if
`call_tool` were reachable — the handler's return value wrapped as a
one-element text content list.  Used only to state what the claim
expects; the running code takes `py_handle_tool_call` instead. -/
def py_handle_tool_call_intended (ps : PythonMCPServer) (request_id : Json) (params : Json) :
    Except Unit Json :=
  match dget params "name", dgetD params "arguments" (.obj []) with
  | .ok tool_name, .ok arguments =>
    if !tool_name.truthy then
      .ok (py_create_error_response request_id (-32602) "Missing tool name")
    else
      match ps.mcp.call_tool_dead_code tool_name arguments with
      | .ok result =>
        .ok (.obj [("jsonrpc", .str "2.0"), ("id", request_id),
          ("result", .obj [("content",
            .arr [.obj [("type", .str "text"), ("text", .str (pyStr result))]])])])
      | .error _ =>
        .ok (py_create_error_response request_id (-32000) "Tool execution failed")
  | _, _ => .error ()

/-- `PythonMCPServer.handle_request` (python_mcp.py lines 316-336).
The broad `try` turns any exception raised while handling into a
-32603 error response carrying `request.get("id")`.  The only way an
exception escapes `handle_request` itself is a non-dict `request`, for
which `request.get` raises both in the body and again inside the
`except` handler. -/
def PythonMCPServer.handle_request (ps : PythonMCPServer) (request : Json) :
    Except Unit Json :=
  match request with
  | .obj kvs =>
    let method := dgetKV kvs "method"
    let params := (lookupKV kvs "params").getD (.obj [])
    let request_id := dgetKV kvs "id"
    if method = .str "initialize" then
      match py_handle_initialize_request request_id with
      | .ok r => .ok r
      | .error _ =>
        .ok (py_create_error_response request_id (-32603)
          "AttributeError: no attribute get_server_info")
    else if method = .str "tools/list" then
      .ok (py_handle_tools_list ps request_id)
    else if method = .str "tools/call" then
      match py_handle_tool_call ps request_id params with
      | .ok r => .ok r
      | .error _ =>
        .ok (py_create_error_response request_id (-32603) "exception in tools-call handler")
    else
      .ok (py_create_error_response request_id (-32601) "Unknown method")
  | _ => .error ()

/-! ## The proxy — src/mcp_proxy/proxy.py -/

/-- A before interceptor (`intercept_before` values): receives
`(request, server_name, tool_name)` and returns the (possibly
rewritten) request, `None` (block, here `.ok .null`), or raises
(`.error`). -/
def BeforeHook : Type := Json → String → Json → Except Unit Json

/-- An after interceptor (`intercept_after` values): receives
`(request, response, server_name, tool_name)`. -/
def AfterHook : Type := Json → Json → String → Json → Except Unit Json

/-- `MCPServerConfig` (proxy.py lines 31-73).  `__post_init__` replaces
absent interceptor dicts by empty ones, so they are plain lists here;
the command/python exclusivity checks concern construction only. -/
structure MCPServerConfig where
  name : String
  command : Option String := none
  args : List String := []
  env : List (String × String) := []
  cwd : String := "."
  whitelist : Option (List String) := none
  blacklist : Option (List String) := none
  auto_start : Bool := true
  python_mcp : Option BaseMCP := none
  inherit_env : Bool := false
  intercept_before : List (String × BeforeHook) := []
  intercept_after : List (String × AfterHook) := []

/-- The observable behaviour of an external child process on the
request/response path: `reply msg` is the value
`_read_server_response_with_timeout` (proxy.py lines 1159-1183)
produces after `msg` has been written to the child's stdin — the
parsed JSON of the next stdout line, or `.null` when the read times
out, stdout is closed, or the line fails to parse (the source returns
Python `None` in each of those cases). -/
structure ExtProc where
  reply : Json → Json

/-- The parts of `MCPProxy`'s state the routing layer reads:
`self.servers`, `self.python_servers`, `self.active_processes`
(proxy.py lines 91-93), each an insertion-ordered dict. -/
structure ProxyState where
  servers : List (String × MCPServerConfig) := []
  python_servers : List (String × PythonMCPServer) := []
  active_processes : List (String × ExtProc) := []

/-- Python dict item assignment `d[k] = v`: replaces the value in
place when the key exists, otherwise appends. -/
def dictSet {α : Type} (d : List (String × α)) (k : String) (v : α) :
    List (String × α) :=
  if (lookupKV d k).isSome then
    d.map (fun kv => if kv.1 = k then (k, v) else kv)
  else d ++ [(k, v)]

/-- `MCPProxy.add_server` (proxy.py lines 118-121): plain dict
assignment `self.servers[config.name] = config` — no duplicate check. -/
def MCPProxy.add_server (servers : List (String × MCPServerConfig))
    (config : MCPServerConfig) : List (String × MCPServerConfig) :=
  dictSet servers config.name config

/-- Python `dict.update(upd)`: existing keys keep their position with
the new value; new keys are appended in `upd`'s order. -/
def dictUpdate {α : Type} (base upd : List (String × α)) : List (String × α) :=
  base.map (fun kv =>
      match lookupKV upd kv.1 with
      | some v => (kv.1, v)
      | none => kv)
    ++ upd.filter (fun kv => (lookupKV base kv.1).isNone)

/-- `MCPProxy._build_subprocess_env` (proxy.py lines 123-135),
parameterised by `os.environ`. -/
def MCPProxy.build_subprocess_env (environ : List (String × String))
    (config : MCPServerConfig) : List (String × String) :=
  let base :=
    if config.inherit_env then environ
    else [("PATH", (lookupKV environ "PATH").getD "/usr/bin:/bin:/usr/sbin:/sbin"),
          ("LANG", (lookupKV environ "LANG").getD "C.UTF-8")]
  if config.env.isEmpty then base else dictUpdate base config.env

/-- Python truthiness of an `Optional[List[str]]` field
(`if config.blacklist`): `None` and the empty list are falsy. -/
def pyTruthyStrList : Option (List String) → Bool
  | none => false
  | some l => !l.isEmpty

/-- `MCPProxy.is_tool_allowed` (proxy.py lines 316-335).  Note the
Python truthiness tests `if config.blacklist and ...` /
`if config.whitelist and ...`: an empty whitelist or blacklist is
falsy, so its check is skipped entirely. -/
def MCPProxy.is_tool_allowed (servers : List (String × MCPServerConfig))
    (server_name : String) (tool_name : Json) : Bool :=
  match lookupKV servers server_name with
  | none => false
  | some config =>
    if pyTruthyStrList config.blacklist
        && jsonMemStr tool_name (config.blacklist.getD []) then false
    else if pyTruthyStrList config.whitelist
        && !jsonMemStr tool_name (config.whitelist.getD []) then false
    else true

/-- `MCPProxy._create_error_response` (proxy.py lines 1185-1203):
`None` (here `.null`) when the originating message is falsy or carries
no id; otherwise the JSON-RPC error object.  `.get` raises when the
originating message is truthy but not a dict. -/
def MCPProxy.create_error_response (original_message : Json) (code : Int)
    (message : String) : Except Unit Json :=
  match (if original_message.truthy then dget original_message "id"
         else .ok Json.null) with
  | .error u => .error u
  | .ok message_id =>
    if message_id = .null then
      .ok .null
    else
      .ok (.obj [("jsonrpc", .str "2.0"), ("id", message_id),
                 ("error", .obj [("code", .num code), ("message", .str message)])])

/-- `MCPProxy._is_valid_jsonrpc_message` (proxy.py lines 866-891). -/
def MCPProxy.is_valid_jsonrpc_message (message : Json) : Bool :=
  match message with
  | .obj kvs =>
    if dgetKV kvs "jsonrpc" ≠ .str "2.0" then false
    else
      let has_method := (lookupKV kvs "method").isSome
      let has_result := (lookupKV kvs "result").isSome
      let has_error := (lookupKV kvs "error").isSome
      if has_method then !(has_result || has_error)
      else (has_result || has_error) && !(has_result && has_error)
  | _ => false

/-- `MCPProxy._is_valid_jsonrpc_response` (proxy.py lines 1134-1157).
`"id" not in message` tests key presence: an `"id": null` field counts
as present. -/
def MCPProxy.is_valid_jsonrpc_response (message : Json) : Bool :=
  match message with
  | .obj kvs =>
    if dgetKV kvs "jsonrpc" ≠ .str "2.0" then false
    else if (lookupKV kvs "id").isNone then false
    else
      let has_result := (lookupKV kvs "result").isSome
      let has_error := (lookupKV kvs "error").isSome
      (has_result || has_error) && !(has_result && has_error)
  | _ => false

/-- Interceptor-dict lookup keyed by the (Json) tool name
(`tool_name in config.intercept_before`): only a string matches. -/
def lookupHookB (hooks : List (String × BeforeHook)) : Json → Option BeforeHook
  | .str s => lookupKV hooks s
  | _ => none

/-- Interceptor-dict lookup for after hooks. -/
def lookupHookA (hooks : List (String × AfterHook)) : Json → Option AfterHook
  | .str s => lookupKV hooks s
  | _ => none

/-- `MCPProxy._process_server_interceptors_before` (proxy.py lines
152-197): the specific-tool hook first (a `None` return or an
exception blocks and short-circuits), then the wildcard hook on the
current — possibly rewritten — request.  Returns `.null` for a block. -/
def MCPProxy.process_server_interceptors_before
    (servers : List (String × MCPServerConfig)) (request : Json)
    (server_name : String) (tool_name : Json) : Json :=
  match lookupKV servers server_name with
  | none => request
  | some config =>
    if config.intercept_before.isEmpty then request
    else
      let afterSpecific : Option Json :=
        match lookupHookB config.intercept_before tool_name with
        | none => some request
        | some interceptor =>
          match interceptor request server_name tool_name with
          | .error _ => none
          | .ok r => if r = .null then none else some r
      match afterSpecific with
      | none => .null
      | some current_request =>
        match lookupHookB config.intercept_before (.str "*") with
        | none => current_request
        | some interceptor =>
          match interceptor current_request server_name tool_name with
          | .error _ => .null
          | .ok r => if r = .null then .null else r

/-- `MCPProxy._process_server_interceptors_after` (proxy.py lines
199-252): same shape as the before pipeline; both hooks receive the
original request and the current — possibly rewritten — response. -/
def MCPProxy.process_server_interceptors_after
    (servers : List (String × MCPServerConfig)) (request response : Json)
    (server_name : String) (tool_name : Json) : Json :=
  match lookupKV servers server_name with
  | none => response
  | some config =>
    if config.intercept_after.isEmpty then response
    else
      let afterSpecific : Option Json :=
        match lookupHookA config.intercept_after tool_name with
        | none => some response
        | some interceptor =>
          match interceptor request response server_name tool_name with
          | .error _ => none
          | .ok r => if r = .null then none else some r
      match afterSpecific with
      | none => .null
      | some current_response =>
        match lookupHookA config.intercept_after (.str "*") with
        | none => current_response
        | some interceptor =>
          match interceptor request current_response server_name tool_name with
          | .error _ => .null
          | .ok r => if r = .null then .null else r

/-- `MCPProxy._forward_to_server` (proxy.py lines 1039-1132).
Python branch: validate the message, call `handle_request`, validate
the response and its id.  External branch: validate, write the line to
the child, read one reply with timeout (`ExtProc.reply`; falsy —
including a timeout's `None` — takes the -32003 path), validate the
reply and its id.  `.error` models an exception escaping: that happens
exactly when `_create_error_response` is reached with a truthy
non-dict message, in which case the `except` handler's own
`_create_error_response(message, ...)` raises identically, so the
escape is faithful.  Stdin write failures (also -32003) are not
modelled; `ExtProc.reply` stands for a completed write plus read. -/
def MCPProxy.forward_to_server (st : ProxyState) (server_name : String)
    (message : Json) : Except Unit Json :=
  match lookupKV st.python_servers server_name with
  | some python_server =>
    if !MCPProxy.is_valid_jsonrpc_message message then
      MCPProxy.create_error_response message (-32600) "Invalid Request"
    else
      match python_server.handle_request message with
      | .error _ => MCPProxy.create_error_response message (-32003) "Python server error"
      | .ok response =>
        if !MCPProxy.is_valid_jsonrpc_response response then
          MCPProxy.create_error_response message (-32603) "Internal error"
        else
          match dget message "id", dget response "id" with
          | .ok req_id, .ok resp_id =>
            if req_id ≠ Json.null ∧ resp_id ≠ req_id then
              MCPProxy.create_error_response message (-32603) "Internal error"
            else
              .ok response
          | _, _ => .error ()
  | none =>
    match lookupKV st.active_processes server_name with
    | none =>
      MCPProxy.create_error_response message (-32001)
        (String.append (String.append "Server " server_name) " not running")
    | some process =>
      if !MCPProxy.is_valid_jsonrpc_message message then
        MCPProxy.create_error_response message (-32600) "Invalid Request"
      else
        let response := process.reply message
        if response.truthy then
          if !MCPProxy.is_valid_jsonrpc_response response then
            MCPProxy.create_error_response message (-32603) "Internal error"
          else
            match dget message "id", dget response "id" with
            | .ok req_id, .ok resp_id =>
              if req_id ≠ Json.null ∧ resp_id ≠ req_id then
                MCPProxy.create_error_response message (-32603) "Internal error"
              else
                .ok response
            | _, _ => .error ()
        else
          MCPProxy.create_error_response message (-32003)
            "No response from server (timeout)"

/-- The tail of `MCPProxy._route_tool_call_to_server` (proxy.py lines
1020-1037): forward the processed request, turn an absent (`None`)
response into -32003, run the after pipeline, turn a block into
-32001. -/
def MCPProxy.after_forward_stage (st : ProxyState) (message : Json)
    (server_name : String) (tool_name : Json) (processed_request : Json) :
    Except Unit Json :=
  match MCPProxy.forward_to_server st server_name processed_request with
  | .error u => .error u
  | .ok response =>
    if response = Json.null then
      MCPProxy.create_error_response message (-32003) "No response from server"
    else
      let processed_response := MCPProxy.process_server_interceptors_after
        st.servers processed_request response server_name tool_name
      if processed_response = Json.null then
        MCPProxy.create_error_response message (-32001) "Response blocked by interceptor"
      else
        .ok processed_response

/-- `MCPProxy._route_tool_call_to_server` (proxy.py lines 993-1037):
missing tool name → -32602; access filter → -32001; before pipeline
block → -32001; then `MCPProxy.after_forward_stage`. -/
def MCPProxy.route_tool_call_to_server (st : ProxyState) (message : Json)
    (server_name : String) : Except Unit Json :=
  match dgetD message "params" (.obj []) with
  | .error u => .error u
  | .ok params =>
    match dget params "name" with
    | .error u => .error u
    | .ok tool_name =>
      if !tool_name.truthy then
        MCPProxy.create_error_response message (-32602) "Missing tool name"
      else if !MCPProxy.is_tool_allowed st.servers server_name tool_name then
        MCPProxy.create_error_response message (-32001) "Tool not allowed"
      else
        let processed_request := MCPProxy.process_server_interceptors_before
          st.servers message server_name tool_name
        if processed_request = Json.null then
          MCPProxy.create_error_response message (-32001) "Tool call blocked by interceptor"
        else
          MCPProxy.after_forward_stage st message server_name tool_name processed_request

/-- Python iteration `for x in v:`: lists yield their elements, dicts
their keys, strings their one-character substrings; other values raise
`TypeError`. -/
def pyIterElems : Json → Except Unit (List Json)
  | .arr xs => .ok xs
  | .obj kvs => .ok (kvs.map (fun kv => .str kv.1))
  | .str s => .ok (s.data.map (fun c => .str (String.mk [c])))
  | _ => .error ()

/-- The `for tool in tools:` filtering loop of
`_handle_tools_list_for_server` (proxy.py lines 970-978): keep the
tools whose `name` value is truthy and allowed; `tool.get` raises on a
non-dict element. -/
def MCPProxy.filterToolsLoop (servers : List (String × MCPServerConfig))
    (server_name : String) : List Json → Except Unit (List Json)
  | [] => .ok []
  | tool :: rest =>
    match dget tool "name" with
    | .error u => .error u
    | .ok tool_name =>
      match MCPProxy.filterToolsLoop servers server_name rest with
      | .error u => .error u
      | .ok filtered =>
        if tool_name.truthy
            && MCPProxy.is_tool_allowed servers server_name tool_name then
          .ok (tool :: filtered)
        else
          .ok filtered

/-- `MCPProxy._handle_tools_list_for_server` (proxy.py lines 960-991):
forward `tools/list`; when a response with a `result` key comes back,
keep exactly the tools whose `name` value is truthy and allowed by the
access filter; otherwise answer with an empty tools list. -/
def MCPProxy.handle_tools_list_for_server (st : ProxyState) (message : Json)
    (server_name : String) : Except Unit Json :=
  match MCPProxy.forward_to_server st server_name message with
  | .error u => .error u
  | .ok server_response =>
    if server_response.truthy && hasKeyJ server_response "result" then
      match dget server_response "result" with
      | .error u => .error u
      | .ok result =>
        match dgetD result "tools" (.arr []) with
        | .error u => .error u
        | .ok tools =>
          match pyIterElems tools with
          | .error u => .error u
          | .ok elems =>
            match MCPProxy.filterToolsLoop st.servers server_name elems with
            | .error u => .error u
            | .ok filtered =>
              match dget message "id" with
              | .error u => .error u
              | .ok mid =>
                .ok (.obj [("jsonrpc", .str "2.0"), ("id", mid),
                           ("result", .obj [("tools", .arr filtered)])])
    else
      match dget message "id" with
      | .error u => .error u
      | .ok mid =>
        .ok (.obj [("jsonrpc", .str "2.0"), ("id", mid),
                   ("result", .obj [("tools", .arr [])])])

/-- `MCPProxy._handle_initialize_for_server` (proxy.py lines 905-925):
forward `initialize`; pass a response carrying a `result` key through
unchanged, otherwise synthesize the default 2024-11-05 response naming
the backend. -/
def MCPProxy.handle_initialize_for_server (st : ProxyState) (message : Json)
    (server_name : String) : Except Unit Json :=
  match MCPProxy.forward_to_server st server_name message with
  | .error u => .error u
  | .ok server_response =>
    if server_response.truthy && hasKeyJ server_response "result" then
      .ok server_response
    else
      match dget message "id" with
      | .error u => .error u
      | .ok mid =>
        .ok (.obj [("jsonrpc", .str "2.0"), ("id", mid),
          ("result", .obj [("protocolVersion", .str "2024-11-05"),
                           ("capabilities", .obj [("tools", .obj [])]),
                           ("serverInfo", .obj [("name", .str server_name),
                                                ("version", .str "1.0.0")])])])

/-- One iteration of `_handle_client_for_server`'s message loop after a
line has been parsed (proxy.py lines 690-711): dispatch on the method.
`.error` models an exception escaping to the `except` clause, which
breaks the loop and closes the connection without writing.
(`_log_received_message` already evaluates `message.get("method")`, so
a non-dict message raises before any dispatch.) -/
def MCPProxy.handle_message_for_server (st : ProxyState) (message : Json)
    (server_name : String) : Except Unit Json :=
  match dget message "method" with
  | .error u => .error u
  | .ok method =>
    if method = .str "tools/list" then
      MCPProxy.handle_tools_list_for_server st message server_name
    else if method = .str "tools/call" then
      MCPProxy.route_tool_call_to_server st message server_name
    else if method = .str "initialize" then
      MCPProxy.handle_initialize_for_server st message server_name
    else
      MCPProxy.forward_to_server st server_name message

/-- What the connection handler writes back for one message (proxy.py
lines 713-723): nothing when an exception broke the loop, nothing when
the dispatch produced a falsy value (`if response:`), otherwise the
response line. -/
def MCPProxy.client_write (result : Except Unit Json) : Option Json :=
  match result with
  | .error _ => none
  | .ok response => if response.truthy then some response else none

/-! ## Connection bounding — the semaphore discipline of
`_handle_client_for_server` (proxy.py lines 106, 654-662, 744-753) -/

/-- State of the proxy-wide `threading.BoundedSemaphore`
(`connection_semaphore`, proxy.py line 106) together with the
connection-handler threads that interact with it.  `value` is the
semaphore's internal counter (available slots), `initial` its bound
(`max_connections`); `active` counts handler threads that acquired a
slot and whose `finally` release has not yet run; `refusedPending`
counts handler threads whose non-blocking acquire failed and that
closed the fresh client socket and returned — with their `finally`
block's release still to run. -/
structure SemState where
  value : Nat
  initial : Nat
  active : Nat
  refusedPending : Nat
  deriving DecidableEq

/-- `BoundedSemaphore.release()` wrapped in the handler's
`try: ... except Exception: pass` (proxy.py lines 749-752): a release
beyond the bound raises `ValueError`, which is swallowed, leaving the
counter unchanged; otherwise the counter is incremented. -/
def boundedRelease (s : SemState) : SemState :=
  if s.value ≥ s.initial then s else { s with value := s.value + 1 }

/-- Interleaved execution of the handler threads' semaphore
operations, one source-level operation per step. -/
inductive SemStep : SemState → SemState → Prop where
  /-- `connection_semaphore.acquire(blocking=False)` succeeds (proxy.py
  line 657): the accepting handler now holds a slot and serves the
  connection. -/
  | acceptOk (s : SemState) (h : 0 < s.value) :
      SemStep s { s with value := s.value - 1, active := s.active + 1 }
  /-- The non-blocking acquire fails (counter at zero): the handler
  closes the connection before reading any request and returns
  (proxy.py lines 657-662); its `finally` release is now pending. -/
  | acceptRefused (s : SemState) (h : s.value = 0) :
      SemStep s { s with refusedPending := s.refusedPending + 1 }
  /-- A handler that held a slot finishes; its `finally` block releases
  the slot (proxy.py lines 744-752). -/
  | finish (s : SemState) (h : 0 < s.active) :
      SemStep s (boundedRelease { s with active := s.active - 1 })
  /-- The `finally` block of a refused handler runs: it releases a slot
  it never acquired (proxy.py lines 744-752); the `except Exception:
  pass` hides the `ValueError` only while the counter already sits at
  the bound. -/
  | spuriousRelease (s : SemState) (h : 0 < s.refusedPending) :
      SemStep s (boundedRelease { s with refusedPending := s.refusedPending - 1 })

/-- Reachability of semaphore states under interleaved handler
scheduling, starting from a given state. -/
def SemReachable : SemState → SemState → Prop := Relation.ReflTransGen SemStep

/-! ## Helper lemmas about dict lookups -/

theorem lookupKV_append {α : Type} (a b : List (String × α)) (k : String) :
    lookupKV (a ++ b) k =
      match lookupKV a k with
      | some v => some v
      | none => lookupKV b k := by
  induction a with
  | nil => simp [lookupKV]
  | cons hd tl ih =>
    obtain ⟨k', v'⟩ := hd
    by_cases hk : k' = k <;> simp [lookupKV, hk, ih]

theorem lookupKV_map_override {α : Type} (base upd : List (String × α)) (k : String) :
    lookupKV (base.map (fun kv =>
        match lookupKV upd kv.1 with
        | some v => (kv.1, v)
        | none => kv)) k
      = (lookupKV base k).map (fun v => (lookupKV upd k).getD v) := by
  induction base with
  | nil => simp [lookupKV]
  | cons hd tl ih =>
    obtain ⟨k', v'⟩ := hd
    by_cases hk : k' = k
    · subst hk
      cases h : lookupKV upd k' <;> simp [lookupKV, h]
    · cases h : lookupKV upd k' <;> simp [lookupKV, hk, h, ih]

theorem lookupKV_filter_of_none {α : Type} (base upd : List (String × α)) (k : String)
    (h : lookupKV base k = none) :
    lookupKV (upd.filter (fun kv => (lookupKV base kv.1).isNone)) k
      = lookupKV upd k := by
  induction upd with
  | nil => simp
  | cons hd tl ih =>
    obtain ⟨k', v'⟩ := hd
    by_cases hk : k' = k
    · subst hk
      simp [List.filter, lookupKV, h]
    · by_cases hb : (lookupKV base k').isNone <;>
        simp [List.filter, lookupKV, hk, hb, ih]

theorem lookupKV_dictUpdate {α : Type} (base upd : List (String × α)) (k : String) :
    lookupKV (dictUpdate base upd) k =
      match lookupKV base k with
      | some v => some ((lookupKV upd k).getD v)
      | none => lookupKV upd k := by
  unfold dictUpdate
  rw [lookupKV_append]
  rw [lookupKV_map_override]
  cases h : lookupKV base k with
  | none => simp [lookupKV_filter_of_none base upd k h]
  | some v => simp

theorem lookupKV_map_set {α : Type} (d : List (String × α)) (k : String) (v : α) :
    lookupKV (d.map (fun kv => if kv.1 = k then (k, v) else kv)) k
      = (lookupKV d k).map (fun _ => v) := by
  induction d with
  | nil => simp [lookupKV]
  | cons hd tl ih =>
    obtain ⟨k', v'⟩ := hd
    by_cases hk : k' = k
    · subst hk
      simp only [List.map_cons]
      simp [lookupKV]
    · simp only [List.map_cons]
      rw [if_neg (by simpa using hk)]
      simp [lookupKV, hk, ih]

theorem lookupKV_dictSet_self {α : Type} (d : List (String × α)) (k : String) (v : α) :
    lookupKV (dictSet d k v) k = some v := by
  unfold dictSet
  cases h : lookupKV d k with
  | some w => simp [h, lookupKV_map_set]
  | none => simp [h, lookupKV_append, lookupKV]

/-! ## C9 — subprocess environment construction -/

/-- **C9** (confirmed).  Lookup characterisation of
`_build_subprocess_env`: an explicit `env` entry always wins; absent
that, with `inherit_env=true` the parent environment decides, and with
`inherit_env=false` only `PATH` and `LANG` (taken from the parent with
the source's fallback defaults) are present — every other key is
absent. -/
theorem build_subprocess_env_lookup (environ : List (String × String))
    (config : MCPServerConfig) (k : String) :
    lookupKV (MCPProxy.build_subprocess_env environ config) k =
      match lookupKV config.env k with
      | some v => some v
      | none =>
        if config.inherit_env then lookupKV environ k
        else if k = "PATH" then
          some ((lookupKV environ "PATH").getD "/usr/bin:/bin:/usr/sbin:/sbin")
        else if k = "LANG" then
          some ((lookupKV environ "LANG").getD "C.UTF-8")
        else none := by
  have hbase : lookupKV
      (if config.inherit_env then environ
       else [("PATH", (lookupKV environ "PATH").getD "/usr/bin:/bin:/usr/sbin:/sbin"),
             ("LANG", (lookupKV environ "LANG").getD "C.UTF-8")]) k =
      (if config.inherit_env then lookupKV environ k
       else if k = "PATH" then
         some ((lookupKV environ "PATH").getD "/usr/bin:/bin:/usr/sbin:/sbin")
       else if k = "LANG" then
         some ((lookupKV environ "LANG").getD "C.UTF-8")
       else none) := by
    by_cases hi : config.inherit_env
    · simp [hi]
    · by_cases hp : k = "PATH"
      · subst hp
        simp [hi, lookupKV]
      · by_cases hl : k = "LANG"
        · subst hl
          simp [hi, lookupKV]
        · simp [hi, hp, hl, lookupKV, Ne.symm hp, Ne.symm hl]
  show lookupKV
      (if config.env.isEmpty then _ else dictUpdate _ config.env) k = _
  by_cases hemp : config.env.isEmpty = true
  · have henv : lookupKV config.env k = none := by
      cases hc : config.env
      · rfl
      · rw [hc] at hemp
        simp [List.isEmpty] at hemp
    rw [if_pos hemp]
    simpa [henv] using hbase
  · rw [if_neg hemp]
    rw [lookupKV_dictUpdate]
    rw [hbase]
    generalize (if config.inherit_env then lookupKV environ k
       else if k = "PATH" then
         some ((lookupKV environ "PATH").getD "/usr/bin:/bin:/usr/sbin:/sbin")
       else if k = "LANG" then
         some ((lookupKV environ "LANG").getD "C.UTF-8")
       else none) = o
    cases he : lookupKV config.env k <;> cases o <;> simp [he]

/-! ## C4 — duplicate registration -/

/-- First configuration of the C4 counterexample. -/
def c4_first : MCPServerConfig := { name := "srv", command := some "cmd-one" }

/-- Second configuration of the C4 counterexample: same name,
different command. -/
def c4_second : MCPServerConfig := { name := "srv", command := some "cmd-two" }

/-- **C4** (counterexample).  `add_server` is a bare dict assignment:
registering a second backend under an already-registered name raises
no duplicate-name error and silently replaces the stored
configuration — afterwards the registry maps "srv" to the second
config's command, not the first's. -/
theorem add_server_duplicate_overwrites :
    lookupKV (MCPProxy.add_server (MCPProxy.add_server [] c4_first) c4_second) "srv"
      = some c4_second
    ∧ (lookupKV (MCPProxy.add_server (MCPProxy.add_server [] c4_first) c4_second)
          "srv").map (fun c => c.command) ≠ some c4_first.command := by
  refine ⟨rfl, ?_⟩
  intro h
  simp [MCPProxy.add_server, dictSet, lookupKV, c4_first, c4_second] at h

/-- **C4** (amended, proved).  Re-registering an existing name never
fails and the last registration wins: the registry afterwards maps the
name to the newest configuration. -/
theorem add_server_last_registration_wins
    (servers : List (String × MCPServerConfig)) (c1 c2 : MCPServerConfig)
    (h : c2.name = c1.name) :
    lookupKV (MCPProxy.add_server (MCPProxy.add_server servers c1) c2) c1.name
      = some c2 := by
  unfold MCPProxy.add_server
  rw [← h]
  exact lookupKV_dictSet_self _ _ _

/-- Witness for `add_server_last_registration_wins` at the concrete
duplicate pair. -/
theorem add_server_last_registration_wins_witness :
    lookupKV (MCPProxy.add_server (MCPProxy.add_server [] c4_first) c4_second)
        c4_first.name = some c4_second :=
  add_server_last_registration_wins [] c4_first c4_second rfl

/-! ## C10 — error-response construction and notification silence -/

theorem create_error_obj_id_null (kvs : List (String × Json)) (code : Int)
    (msg : String) (h : dgetKV kvs "id" = Json.null) :
    MCPProxy.create_error_response (.obj kvs) code msg = .ok .null := by
  unfold MCPProxy.create_error_response
  cases kvs with
  | nil => rfl
  | cons hd tl => simp [Json.truthy, dget, h]

theorem create_error_obj_id_some (kvs : List (String × Json)) (code : Int)
    (msg : String) (v : Json) (h : dgetKV kvs "id" = v) (hv : v ≠ Json.null) :
    MCPProxy.create_error_response (.obj kvs) code msg =
      .ok (.obj [("jsonrpc", .str "2.0"), ("id", v),
                 ("error", .obj [("code", .num code), ("message", .str msg)])]) := by
  unfold MCPProxy.create_error_response
  cases kvs with
  | nil =>
    exfalso
    exact hv (by simpa [dgetKV, lookupKV] using h.symm)
  | cons hd tl => simp [Json.truthy, dget, h, hv]

/-- **C10** (confirmed).  (i) For an originating message whose id is
absent or null, `_create_error_response` returns `None` whatever the
code, and the handler writes nothing for it; likewise for a falsy
(`None`) originating message.  (ii) With an id present, the
constructed response is exactly the object with jsonrpc "2.0", the
originating id, and an error object carrying the code and message (no
result field).  (iii) Consequently a router error path on a
notification writes nothing: e.g. a tools/call notification without
params takes the missing-tool-name path and produces no response. -/
theorem create_error_response_spec :
    (∀ (kvs : List (String × Json)) (code : Int) (msg : String),
        dgetKV kvs "id" = Json.null →
          MCPProxy.create_error_response (.obj kvs) code msg = .ok .null
          ∧ MCPProxy.client_write
              (MCPProxy.create_error_response (.obj kvs) code msg) = none)
    ∧ (∀ (code : Int) (msg : String),
        MCPProxy.create_error_response Json.null code msg = .ok .null)
    ∧ (∀ (kvs : List (String × Json)) (code : Int) (msg : String) (v : Json),
        dgetKV kvs "id" = v → v ≠ Json.null →
          MCPProxy.create_error_response (.obj kvs) code msg =
            .ok (.obj [("jsonrpc", .str "2.0"), ("id", v),
                       ("error", .obj [("code", .num code),
                                       ("message", .str msg)])]))
    ∧ (∀ (st : ProxyState) (server_name : String) (kvs : List (String × Json)),
        dgetKV kvs "id" = Json.null → lookupKV kvs "params" = none →
          MCPProxy.route_tool_call_to_server st (.obj kvs) server_name = .ok .null
          ∧ MCPProxy.client_write
              (MCPProxy.route_tool_call_to_server st (.obj kvs) server_name)
              = none) := by
  refine ⟨?_, ?_, ?_, ?_⟩
  · intro kvs code msg h
    have h1 := create_error_obj_id_null kvs code msg h
    exact ⟨h1, by rw [h1]; rfl⟩
  · intro code msg
    rfl
  · intro kvs code msg v h hv
    exact create_error_obj_id_some kvs code msg v h hv
  · intro st server_name kvs hid hparams
    have h1 : MCPProxy.route_tool_call_to_server st (.obj kvs) server_name
        = .ok .null := by
      unfold MCPProxy.route_tool_call_to_server
      simp [dgetD, hparams, dget, dgetKV, lookupKV, Json.truthy]
      exact create_error_obj_id_null kvs (-32602) "Missing tool name" hid
    exact ⟨h1, by rw [h1]; rfl⟩

/-- Witness for `create_error_response_spec` at concrete inputs: a
notification yields no error response, a request with id 4 yields the
full -32001 error object, and a params-less tools/call notification
routes to silence. -/
theorem create_error_response_spec_witness :
    MCPProxy.create_error_response (.obj [("method", .str "x")]) (-32600)
        "Invalid Request" = .ok .null
    ∧ MCPProxy.create_error_response (.obj [("id", .num 4)]) (-32001) "denied" =
        .ok (.obj [("jsonrpc", .str "2.0"), ("id", .num 4),
                   ("error", .obj [("code", .num (-32001)),
                                   ("message", .str "denied")])])
    ∧ MCPProxy.route_tool_call_to_server {}
        (.obj [("jsonrpc", .str "2.0"), ("method", .str "tools/call")]) "s"
        = .ok .null :=
  ⟨(create_error_response_spec.1 [("method", .str "x")] (-32600) "Invalid Request"
      rfl).1,
   create_error_response_spec.2.2.1 [("id", .num 4)] (-32001) "denied" (.num 4)
      rfl (by decide),
   (create_error_response_spec.2.2.2 {} "s"
      [("jsonrpc", .str "2.0"), ("method", .str "tools/call")] rfl rfl).1⟩

/-! ## C5 — access filter -/

/-- C5 counterexample configuration: a whitelist that is set but
empty. -/
def c5_config : MCPServerConfig :=
  { name := "s", command := some "c", whitelist := some [] }

/-- C5 counterexample registry. -/
def c5_servers : List (String × MCPServerConfig) := [("s", c5_config)]

/-- **C5** (counterexample).  The claim says a SET whitelist denies
every tool outside it — so an empty whitelist would deny everything.
The code tests `if config.whitelist and ...`: an empty list is falsy,
the whitelist check is skipped, and the tool is ALLOWED. -/
theorem is_tool_allowed_empty_whitelist :
    c5_config.whitelist = some []
    ∧ MCPProxy.is_tool_allowed c5_servers "s" (.str "sometool") = true :=
  ⟨rfl, rfl⟩

theorem create_error_shape (m : Json) (c : Int) (s : String) (r : Json)
    (h : MCPProxy.create_error_response m c s = .ok r) :
    r = Json.null ∨ hasKeyJ r "error" = true := by
  unfold MCPProxy.create_error_response at h
  split at h
  · cases h
  · split at h
    · cases h
      exact .inl rfl
    · cases h
      right
      simp [hasKeyJ, lookupKV]

/-- The source's deny/deny/allow cascade as a boolean formula. -/
theorem ite_deny_cascade (c1 c2 : Bool) :
    (if c1 = true then false else if c2 = true then false else true)
      = (!c1 && !c2) := by
  cases c1 <;> cases c2 <;> rfl

/-- **C5** (amended, proved).  (i) For a registered backend the access
decision is: deny when the blacklist is set and contains the tool;
otherwise deny when the whitelist is set, NON-EMPTY, and does not
contain the tool; otherwise allow — an empty whitelist (like an unset
one) allows every tool, which is where the original claim fails.
(ii) An unregistered backend allows nothing.  (iii) A blacklisted tool
never yields a non-error tools/call response: whatever the backends
and interceptors, the routed result is `None` or an error object. -/
theorem is_tool_allowed_spec :
    (∀ (servers : List (String × MCPServerConfig)) (server_name : String)
        (cfg : MCPServerConfig) (t : String),
        lookupKV servers server_name = some cfg →
          MCPProxy.is_tool_allowed servers server_name (.str t) =
            ((match cfg.blacklist with
              | some bl => !bl.contains t
              | none => true)
             && (match cfg.whitelist with
              | some wl => wl.isEmpty || wl.contains t
              | none => true)))
    ∧ (∀ (servers : List (String × MCPServerConfig)) (server_name : String)
        (t : String),
        lookupKV servers server_name = none →
          MCPProxy.is_tool_allowed servers server_name (.str t) = false)
    ∧ (∀ (st : ProxyState) (server_name : String) (cfg : MCPServerConfig)
        (bl : List String) (t : String) (msg params : Json),
        lookupKV st.servers server_name = some cfg →
        cfg.blacklist = some bl → bl.contains t = true →
        dgetD msg "params" (.obj []) = .ok params →
        dget params "name" = .ok (.str t) →
        ∀ r, MCPProxy.route_tool_call_to_server st msg server_name = .ok r →
          r = Json.null ∨ hasKeyJ r "error" = true) := by
  refine ⟨?_, ?_, ?_⟩
  · intro servers server_name cfg t h
    simp only [MCPProxy.is_tool_allowed, h, ite_deny_cascade]
    cases hbl : cfg.blacklist with
    | none =>
      cases hwl : cfg.whitelist with
      | none => simp [pyTruthyStrList, jsonMemStr]
      | some wl =>
        cases wl with
        | nil => simp [pyTruthyStrList, jsonMemStr]
        | cons w ws =>
          cases hcw : (w :: ws).contains t <;>
            simp [pyTruthyStrList, jsonMemStr, hcw]
    | some bl =>
      cases bl with
      | nil =>
        cases hwl : cfg.whitelist with
        | none => simp [pyTruthyStrList, jsonMemStr, List.contains]
        | some wl =>
          cases wl with
          | nil => simp [pyTruthyStrList, jsonMemStr, List.contains]
          | cons w ws =>
            cases hcw : (w :: ws).contains t <;>
              simp [pyTruthyStrList, jsonMemStr, hcw, List.contains]
      | cons b bs =>
        cases hcb : (b :: bs).contains t with
        | true =>
          cases hwl : cfg.whitelist with
          | none => simp [pyTruthyStrList, jsonMemStr, hcb]
          | some wl =>
            cases wl with
            | nil => simp [pyTruthyStrList, jsonMemStr, hcb]
            | cons w ws =>
              cases hcw : (w :: ws).contains t <;>
                simp [pyTruthyStrList, jsonMemStr, hcb, hcw]
        | false =>
          cases hwl : cfg.whitelist with
          | none => simp [pyTruthyStrList, jsonMemStr, hcb]
          | some wl =>
            cases wl with
            | nil => simp [pyTruthyStrList, jsonMemStr, hcb]
            | cons w ws =>
              cases hcw : (w :: ws).contains t <;>
                simp [pyTruthyStrList, jsonMemStr, hcb, hcw]
  · intro servers server_name t h
    simp only [MCPProxy.is_tool_allowed, h]
  · intro st server_name cfg bl t msg params hcfg hbl hmem hparams hname r hroute
    have hdeny : MCPProxy.is_tool_allowed st.servers server_name (.str t)
        = false := by
      simp only [MCPProxy.is_tool_allowed, hcfg, hbl]
      cases bl with
      | nil => exact Bool.noConfusion hmem
      | cons b bs =>
        have hcond : (pyTruthyStrList (some (b :: bs))
            && jsonMemStr (.str t) ((some (b :: bs)).getD [])) = true := by
          simp only [pyTruthyStrList, jsonMemStr, Option.getD_some,
            List.isEmpty_cons, Bool.not_false, Bool.true_and]
          exact hmem
        rw [if_pos hcond]
    unfold MCPProxy.route_tool_call_to_server at hroute
    simp only [hparams, hname] at hroute
    by_cases ht : (Json.str t).truthy = true
    · simp only [ht, hdeny, Bool.not_true, Bool.not_false, Bool.false_eq_true,
        if_false, if_true] at hroute
      exact create_error_shape msg (-32001) "Tool not allowed" r hroute
    · rw [Bool.not_eq_true] at ht
      simp only [ht, Bool.not_false, if_true] at hroute
      exact create_error_shape msg (-32602) "Missing tool name" r hroute

/-- Backend config used by the C5 witness: blacklist `["divide"]`. -/
def c5w_config : MCPServerConfig :=
  { name := "m", command := some "c", blacklist := some ["divide"] }

/-- Proxy state for the C5 witness. -/
def c5w_state : ProxyState := { servers := [("m", c5w_config)] }

/-- The C5 witness request: `tools/call name=divide id=1`. -/
def c5w_msg : Json :=
  .obj [("jsonrpc", .str "2.0"), ("id", .num 1), ("method", .str "tools/call"),
        ("params", .obj [("name", .str "divide")])]

/-- Witness for `is_tool_allowed_spec`: calling the blacklisted
`divide` yields the -32001 error object, which carries an error key. -/
theorem is_tool_allowed_spec_witness :
    (Json.obj [("jsonrpc", .str "2.0"), ("id", .num 1),
        ("error", .obj [("code", .num (-32001)),
                        ("message", .str "Tool not allowed")])]) = Json.null
    ∨ hasKeyJ (Json.obj [("jsonrpc", .str "2.0"), ("id", .num 1),
        ("error", .obj [("code", .num (-32001)),
                        ("message", .str "Tool not allowed")])]) "error" = true :=
  is_tool_allowed_spec.2.2 c5w_state "m" c5w_config ["divide"] "divide" c5w_msg
    (.obj [("name", .str "divide")]) rfl rfl rfl rfl rfl
    (.obj [("jsonrpc", .str "2.0"), ("id", .num 1),
        ("error", .obj [("code", .num (-32001)),
                        ("message", .str "Tool not allowed")])]) rfl

/-! ## C3 — connection bounding -/

/-- **C3** (the claim fails on the code).  With `max_connections = 2`,
interleaved scheduling reaches a state with THREE active handler
threads: two clients connect and hold slots; a third is refused; one
holder finishes (releasing); the refused handler's `finally` block now
runs `release()` on a semaphore it never acquired — the counter is
below the bound, so no `ValueError` fires and the counter is wrongly
incremented; two further clients then both acquire.  The refused
connection thus did NOT leave the available-slot count unchanged, and
more than N connections hold open handler tasks. -/
theorem semaphore_overadmission :
    SemReachable ⟨2, 2, 0, 0⟩ ⟨0, 2, 3, 0⟩
    ∧ (⟨0, 2, 3, 0⟩ : SemState).active > (⟨0, 2, 3, 0⟩ : SemState).initial := by
  constructor
  · have s1 : SemStep ⟨2, 2, 0, 0⟩ ⟨1, 2, 1, 0⟩ := SemStep.acceptOk _ (by decide)
    have s2 : SemStep ⟨1, 2, 1, 0⟩ ⟨0, 2, 2, 0⟩ := SemStep.acceptOk _ (by decide)
    have s3 : SemStep ⟨0, 2, 2, 0⟩ ⟨0, 2, 2, 1⟩ :=
      SemStep.acceptRefused _ (by decide)
    have s4 : SemStep ⟨0, 2, 2, 1⟩ ⟨1, 2, 1, 1⟩ := SemStep.finish _ (by decide)
    have s5 : SemStep ⟨1, 2, 1, 1⟩ ⟨2, 2, 1, 0⟩ :=
      SemStep.spuriousRelease _ (by decide)
    have s6 : SemStep ⟨2, 2, 1, 0⟩ ⟨1, 2, 2, 0⟩ := SemStep.acceptOk _ (by decide)
    have s7 : SemStep ⟨1, 2, 2, 0⟩ ⟨0, 2, 3, 0⟩ := SemStep.acceptOk _ (by decide)
    exact .head s1 (.head s2 (.head s3 (.head s4 (.head s5
      (.head s6 (.head s7 .refl))))))
  · decide

/-! ## C1 — embedded tools/call (echo round trip) -/

/-- The echo backend's `say` tool: returns its `msg` argument. -/
def echo_tool : MCPTool :=
  { name := "say", description := "Echo a message",
    parameters := .obj [("type", .str "object")],
    sigParams := ["msg"],
    function := fun args => dget args "msg" }

/-- The echo `BaseMCP`, with `say` registered. -/
def echo_mcp : BaseMCP := { name := "echo", tools := [("say", echo_tool)] }

/-- Proxy state with the echo backend registered and running. -/
def echo_state : ProxyState :=
  { servers := [("echo", { name := "echo", python_mcp := some echo_mcp })],
    python_servers := [("echo", { mcp := echo_mcp })] }

/-- The spec's scenario-1 request:
`{"jsonrpc":"2.0","id":7,"method":"tools/call",
  "params":{"name":"say","arguments":{"msg":"hi"}}}`. -/
def echo_request : Json :=
  .obj [("jsonrpc", .str "2.0"), ("id", .num 7), ("method", .str "tools/call"),
        ("params", .obj [("name", .str "say"),
                         ("arguments", .obj [("msg", .str "hi")])])]

/-- **C1** (code bug).  On the claimed echo round trip the running
code never invokes the registered handler: `BaseMCP` has no
`call_tool` attribute (it is dead code inside `expose_tool`,
python_mcp.py lines 258-288), so `_handle_tool_call`'s `try` catches
an `AttributeError` and the client receives a -32000 "Tool execution
failed" ERROR with id 7 — not the claimed
`{"content":[{"type":"text","text":"hi"}]}` result.  The second
conjunct shows that the handler-wrapping semantics recovered from the
dead code produces exactly the claimed result, confirming the claim
matches the code's evident intent. -/
theorem echo_tools_call_code_bug :
    MCPProxy.client_write
        (MCPProxy.handle_message_for_server echo_state echo_request "echo") =
      some (.obj [("jsonrpc", .str "2.0"), ("id", .num 7),
        ("error", .obj [("code", .num (-32000)),
          ("message",
           .str "Tool execution failed: AttributeError: no attribute call_tool")])])
    ∧ py_handle_tool_call_intended { mcp := echo_mcp } (.num 7)
        (.obj [("name", .str "say"), ("arguments", .obj [("msg", .str "hi")])]) =
      .ok (.obj [("jsonrpc", .str "2.0"), ("id", .num 7),
        ("result", .obj [("content",
          .arr [.obj [("type", .str "text"), ("text", .str "hi")]])])]) :=
  ⟨rfl, rfl⟩

/-! ## C6 — response validation in forward -/

/-- The JSON-RPC error object the proxy synthesizes for id `v`. -/
def jsonrpcErrorObj (v : Json) (code : Int) (msg : String) : Json :=
  .obj [("jsonrpc", .str "2.0"), ("id", v),
        ("error", .obj [("code", .num code), ("message", .str msg)])]

/-- C6 counterexample child: replies to everything with the empty
JSON object `{}` — a schema-invalid response. -/
def c6_proc : ExtProc := { reply := fun _ => .obj [] }

/-- C6 counterexample proxy state: one running external backend. -/
def c6_state : ProxyState :=
  { servers := [("x", { name := "x", command := some "c" })],
    active_processes := [("x", c6_proc)] }

/-- C6 counterexample request (id 1). -/
def c6_msg : Json :=
  .obj [("jsonrpc", .str "2.0"), ("id", .num 1), ("method", .str "ping")]

/-- **C6** (counterexample).  The child's reply `{}` parses fine but is
schema-invalid (no id, no result/error); the claim promises a -32603
error for it.  Being falsy, however, it takes `_forward_to_server`'s
`if response:` else-branch and the client gets the -32003
"No response from server (timeout)" error instead — neither the
claimed -32603 error nor the response passed through. -/
theorem forward_falsy_reply_counterexample :
    MCPProxy.forward_to_server c6_state "x" c6_msg =
      .ok (jsonrpcErrorObj (.num 1) (-32003) "No response from server (timeout)")
    ∧ MCPProxy.is_valid_jsonrpc_response (c6_proc.reply c6_msg) = false
    ∧ MCPProxy.forward_to_server c6_state "x" c6_msg ≠
        .ok (jsonrpcErrorObj (.num 1) (-32603) "Internal error")
    ∧ MCPProxy.forward_to_server c6_state "x" c6_msg ≠ .ok (c6_proc.reply c6_msg) := by
  refine ⟨rfl, rfl, ?_, ?_⟩ <;> decide

/-- **C6** (amended, proved).  For a request with a non-null id `v`,
every TRUTHY response obtained from a backend is checked against the
JSON-RPC response schema and for id equality before being returned: on
either failure the client gets the synthesized -32603 error with id
`v`, and on success the response is returned unchanged.  The
amendment: an external child's reply that parses to a falsy value
(e.g. `{}` or `null`) is treated as no response at all and yields the
-32003 error instead of -32603 (see the counterexample). -/
theorem forward_to_server_validation_spec
    (st : ProxyState) (server_name : String) (mkvs : List (String × Json))
    (v : Json) (hid : dgetKV mkvs "id" = v) (hv : v ≠ Json.null)
    (hvalid : MCPProxy.is_valid_jsonrpc_message (.obj mkvs) = true) :
    (∀ proc, lookupKV st.python_servers server_name = none →
      lookupKV st.active_processes server_name = some proc →
      (((proc.reply (.obj mkvs)).truthy = false →
        MCPProxy.forward_to_server st server_name (.obj mkvs) =
          .ok (jsonrpcErrorObj v (-32003) "No response from server (timeout)"))
      ∧ ((proc.reply (.obj mkvs)).truthy = true →
         MCPProxy.is_valid_jsonrpc_response (proc.reply (.obj mkvs)) = false →
          MCPProxy.forward_to_server st server_name (.obj mkvs) =
            .ok (jsonrpcErrorObj v (-32603) "Internal error"))
      ∧ (∀ rkvs, proc.reply (.obj mkvs) = .obj rkvs →
          (Json.obj rkvs).truthy = true →
          MCPProxy.is_valid_jsonrpc_response (.obj rkvs) = true →
          dgetKV rkvs "id" ≠ v →
          MCPProxy.forward_to_server st server_name (.obj mkvs) =
            .ok (jsonrpcErrorObj v (-32603) "Internal error"))
      ∧ (∀ rkvs, proc.reply (.obj mkvs) = .obj rkvs →
          (Json.obj rkvs).truthy = true →
          MCPProxy.is_valid_jsonrpc_response (.obj rkvs) = true →
          dgetKV rkvs "id" = v →
          MCPProxy.forward_to_server st server_name (.obj mkvs) =
            .ok (.obj rkvs))))
    ∧ (∀ ps response, lookupKV st.python_servers server_name = some ps →
      ps.handle_request (.obj mkvs) = .ok response →
      ((MCPProxy.is_valid_jsonrpc_response response = false →
        MCPProxy.forward_to_server st server_name (.obj mkvs) =
          .ok (jsonrpcErrorObj v (-32603) "Internal error"))
      ∧ (∀ rkvs, response = .obj rkvs →
          MCPProxy.is_valid_jsonrpc_response response = true →
          dgetKV rkvs "id" ≠ v →
          MCPProxy.forward_to_server st server_name (.obj mkvs) =
            .ok (jsonrpcErrorObj v (-32603) "Internal error"))
      ∧ (∀ rkvs, response = .obj rkvs →
          MCPProxy.is_valid_jsonrpc_response response = true →
          dgetKV rkvs "id" = v →
          MCPProxy.forward_to_server st server_name (.obj mkvs) =
            .ok response))) := by
  have herr : ∀ (c : Int) (m : String),
      MCPProxy.create_error_response (.obj mkvs) c m =
        .ok (jsonrpcErrorObj v c m) := by
    intro c m
    exact create_error_obj_id_some mkvs c m v hid hv
  constructor
  · intro proc hpy hext
    unfold MCPProxy.forward_to_server
    rw [hpy, hext, hvalid]
    simp only [Bool.not_true, Bool.false_eq_true, if_false]
    refine ⟨?_, ?_, ?_, ?_⟩
    · intro hfalsy
      rw [hfalsy]
      simp only [Bool.false_eq_true, if_false]
      exact herr (-32003) "No response from server (timeout)"
    · intro htruthy hinvalid
      rw [htruthy, hinvalid]
      simp only [if_true, Bool.not_false, Bool.false_eq_true, if_false,
        eq_self_iff_true]
      exact herr (-32603) "Internal error"
    · intro rkvs hr htruthy hvalidr hne
      simp only [hr, htruthy, hvalidr, Bool.not_true, Bool.false_eq_true,
        if_false, if_true, eq_self_iff_true, dget, hid]
      rw [if_pos ⟨hv, hne⟩]
      exact herr (-32603) "Internal error"
    · intro rkvs hr htruthy hvalidr heq
      simp only [hr, htruthy, hvalidr, Bool.not_true, Bool.false_eq_true,
        if_false, if_true, eq_self_iff_true, dget, hid]
      rw [if_neg (fun hc => hc.2 heq)]
  · intro ps response hpy hresp
    unfold MCPProxy.forward_to_server
    rw [hpy]
    simp only [hvalid, hresp, Bool.not_true, Bool.false_eq_true, if_false]
    refine ⟨?_, ?_, ?_⟩
    · intro hinvalid
      rw [hinvalid]
      simp only [Bool.not_false, if_true]
      exact herr (-32603) "Internal error"
    · intro rkvs hr hvalidr hne
      subst hr
      simp only [hvalidr, Bool.not_true, Bool.false_eq_true, if_false,
        dget, hid]
      rw [if_pos ⟨hv, hne⟩]
      exact herr (-32603) "Internal error"
    · intro rkvs hr hvalidr heq
      subst hr
      simp only [hvalidr, Bool.not_true, Bool.false_eq_true, if_false,
        dget, hid]
      rw [if_neg (fun hc => hc.2 heq)]

/-! ## C8 — tools/list filtering -/

/-- C8 counterexample tool: registered under the empty name. -/
def c8_tool : MCPTool :=
  { name := "", description := "d", parameters := .obj [],
    sigParams := [], function := fun _ => .ok .null }

/-- C8 counterexample embedded backend exposing only the unnamed
tool. -/
def c8_mcp : BaseMCP := { name := "u", tools := [("", c8_tool)] }

/-- C8 counterexample proxy state (no whitelist, no blacklist). -/
def c8_state : ProxyState :=
  { servers := [("u", { name := "u", python_mcp := some c8_mcp })],
    python_servers := [("u", { mcp := c8_mcp })] }

/-- C8 counterexample request: `tools/list` with id 2. -/
def c8_msg : Json :=
  .obj [("jsonrpc", .str "2.0"), ("id", .num 2), ("method", .str "tools/list")]

/-- **C8** (counterexample).  The backend reports one tool and the
access filter (no whitelist, no blacklist) denies nothing — the claim
therefore demands that `result.tools` equal the reported list.  But
the handler's `if tool_name and ...` also drops any tool whose name is
missing or empty, so the returned list is empty. -/
theorem tools_list_drops_unnamed_tool :
    MCPProxy.handle_message_for_server c8_state c8_msg "u" =
      .ok (.obj [("jsonrpc", .str "2.0"), ("id", .num 2),
                 ("result", .obj [("tools", .arr [])])])
    ∧ BaseMCP.get_tools c8_mcp =
        .arr [.obj [("name", .str ""), ("description", .str "d"),
                    ("inputSchema", .obj [])]]
    ∧ MCPProxy.is_tool_allowed c8_state.servers "u" (.str "") = true :=
  ⟨rfl, rfl, rfl⟩

/-- The predicate `_handle_tools_list_for_server` actually keeps a tool
by: its `name` value must be truthy AND allowed by the filter (a
non-dict tool raises instead; the predicate is only used under the
all-objects hypothesis). -/
def toolKeptB (servers : List (String × MCPServerConfig)) (server_name : String)
    (tool : Json) : Bool :=
  match dget tool "name" with
  | .ok tn => tn.truthy && MCPProxy.is_tool_allowed servers server_name tn
  | .error _ => false

theorem filterToolsLoop_eq_filter (servers : List (String × MCPServerConfig))
    (server_name : String) (ts : List Json)
    (h : ∀ t ∈ ts, ∃ tkvs, t = Json.obj tkvs) :
    MCPProxy.filterToolsLoop servers server_name ts =
      .ok (ts.filter (toolKeptB servers server_name)) := by
  induction ts with
  | nil => rfl
  | cons t rest ih =>
    obtain ⟨tkvs, rfl⟩ := h t (List.mem_cons_self t rest)
    have ih' := ih (fun t' ht' => h t' (List.mem_cons_of_mem _ ht'))
    unfold MCPProxy.filterToolsLoop
    rw [ih']
    by_cases hk : ((dgetKV tkvs "name").truthy
        && MCPProxy.is_tool_allowed servers server_name (dgetKV tkvs "name")) = true
    · simp [dget, toolKeptB, List.filter, hk]
    · rw [Bool.not_eq_true] at hk
      simp [dget, toolKeptB, List.filter, hk]

/-- **C8** (amended, proved).  When forwarding `tools/list` yields a
response with a `result` object whose `tools` field is a list of
objects, the handler returns exactly that list with every tool removed
whose name value is falsy (missing/empty — the amendment) or denied by
the access filter; when forwarding yields no response (`None`) or a
response without a `result` key, the returned `result.tools` is the
empty list. -/
theorem handle_tools_list_spec (st : ProxyState) (server_name : String)
    (mkvs : List (String × Json)) (resp : Json)
    (hfwd : MCPProxy.forward_to_server st server_name (.obj mkvs) = .ok resp) :
    (∀ (rkvs : List (String × Json)) (result : Json) (ts : List Json),
      resp = .obj rkvs →
      lookupKV rkvs "result" = some result →
      dgetD result "tools" (.arr []) = .ok (.arr ts) →
      (∀ t ∈ ts, ∃ tkvs, t = Json.obj tkvs) →
      MCPProxy.handle_tools_list_for_server st (.obj mkvs) server_name =
        .ok (.obj [("jsonrpc", .str "2.0"), ("id", dgetKV mkvs "id"),
          ("result", .obj [("tools",
            .arr (ts.filter (toolKeptB st.servers server_name)))])]))
    ∧ (resp = Json.null →
        MCPProxy.handle_tools_list_for_server st (.obj mkvs) server_name =
          .ok (.obj [("jsonrpc", .str "2.0"), ("id", dgetKV mkvs "id"),
                     ("result", .obj [("tools", .arr [])])]))
    ∧ (∀ (rkvs : List (String × Json)), resp = .obj rkvs →
        lookupKV rkvs "result" = none →
        MCPProxy.handle_tools_list_for_server st (.obj mkvs) server_name =
          .ok (.obj [("jsonrpc", .str "2.0"), ("id", dgetKV mkvs "id"),
                     ("result", .obj [("tools", .arr [])])])) := by
  refine ⟨?_, ?_, ?_⟩
  · intro rkvs result ts hr hres htools helems
    subst hr
    have hne : rkvs ≠ [] := by
      intro hnil
      subst hnil
      cases hres
    have htruthy : (Json.obj rkvs).truthy = true := by
      cases rkvs with
      | nil => exact absurd rfl hne
      | cons a l => rfl
    have hkey : hasKeyJ (.obj rkvs) "result" = true := by
      simp [hasKeyJ, hres]
    unfold MCPProxy.handle_tools_list_for_server
    simp only [hfwd, htruthy, hkey, Bool.and_self, if_true, dget, dgetKV, hres,
      Option.getD_some, htools, pyIterElems,
      filterToolsLoop_eq_filter st.servers server_name ts helems]
  · intro hr
    subst hr
    unfold MCPProxy.handle_tools_list_for_server
    rw [hfwd]
    rfl
  · intro rkvs hr hres
    subst hr
    unfold MCPProxy.handle_tools_list_for_server
    simp only [hfwd]
    have hkey : hasKeyJ (.obj rkvs) "result" = false := by
      simp [hasKeyJ, hres]
    simp only [hkey, Bool.and_false, Bool.false_eq_true, if_false, dget]

/-- C8 witness backend config: whitelist `["get_time"]`. -/
def c8w_config : MCPServerConfig :=
  { name := "utility", command := some "c", whitelist := some ["get_time"] }

/-- C8 witness child reply: two tools, `get_time` and `dangerous`. -/
def c8w_reply : Json :=
  .obj [("jsonrpc", .str "2.0"), ("id", .num 2),
        ("result", .obj [("tools",
          .arr [.obj [("name", .str "get_time")],
                .obj [("name", .str "dangerous")]])])]

/-- C8 witness child process. -/
def c8w_proc : ExtProc := { reply := fun _ => c8w_reply }

/-- C8 witness proxy state. -/
def c8w_state : ProxyState :=
  { servers := [("utility", c8w_config)],
    active_processes := [("utility", c8w_proc)] }

/-- C8 witness request fields: `tools/list` id 2. -/
def c8w_msg_kvs : List (String × Json) :=
  [("jsonrpc", .str "2.0"), ("id", .num 2), ("method", .str "tools/list")]

/-- Witness for `handle_tools_list_spec`: with whitelist
`["get_time"]` the returned list keeps exactly `get_time`. -/
theorem handle_tools_list_spec_witness :
    MCPProxy.handle_tools_list_for_server c8w_state (.obj c8w_msg_kvs) "utility" =
      .ok (.obj [("jsonrpc", .str "2.0"), ("id", .num 2),
        ("result", .obj [("tools", .arr [.obj [("name", .str "get_time")]])])]) :=
  (handle_tools_list_spec c8w_state "utility" c8w_msg_kvs c8w_reply rfl).1
    [("jsonrpc", .str "2.0"), ("id", .num 2),
     ("result", .obj [("tools",
       .arr [.obj [("name", .str "get_time")],
             .obj [("name", .str "dangerous")]])])]
    (.obj [("tools",
       .arr [.obj [("name", .str "get_time")],
             .obj [("name", .str "dangerous")]])])
    [.obj [("name", .str "get_time")], .obj [("name", .str "dangerous")]]
    rfl rfl rfl
    (by
      intro t ht
      rcases List.mem_cons.mp ht with rfl | ht2
      · exact ⟨_, rfl⟩
      · rcases List.mem_cons.mp ht2 with rfl | ht3
        · exact ⟨_, rfl⟩
        · exact absurd ht3 (List.not_mem_nil t))

/-! ## C2 — notification silence -/

/-- C2 counterexample proxy state: one registered (not running)
external backend. -/
def c2_state : ProxyState :=
  { servers := [("s", { name := "s", command := some "c" })] }

/-- C2 counterexample: a well-formed `tools/list` NOTIFICATION. -/
def c2_notification : Json :=
  .obj [("jsonrpc", .str "2.0"), ("method", .str "tools/list")]

/-- **C2** (counterexample).  The claim says no bytes are ever written
back for a well-formed notification, naming `tools/list` explicitly.
But `_handle_tools_list_for_server` answers every `tools/list` —
id or not — so the handler writes a response line (with `"id": null`)
back to the client. -/
theorem tools_list_notification_gets_response :
    MCPProxy.client_write
        (MCPProxy.handle_message_for_server c2_state c2_notification "s") =
      some (.obj [("jsonrpc", .str "2.0"), ("id", Json.null),
                  ("result", .obj [("tools", .arr [])])]) := rfl

theorem create_error_falsy (m : Json) (c : Int) (s : String)
    (hm : m.truthy = false) :
    MCPProxy.create_error_response m c s = .ok .null := by
  unfold MCPProxy.create_error_response
  simp only [hm, Bool.false_eq_true, if_false]
  rfl

theorem create_error_nonobj (m : Json) (c : Int) (s : String)
    (hm : ∀ okvs, m ≠ Json.obj okvs) :
    MCPProxy.create_error_response m c s =
      (if m.truthy then .error () else .ok .null) := by
  unfold MCPProxy.create_error_response
  by_cases ht : m.truthy = true
  · simp only [ht, if_true]
    cases m with
    | obj okvs => exact absurd rfl (hm okvs)
    | null => cases ht
    | bool b => rfl
    | num n => rfl
    | str sv => rfl
    | arr xs => rfl
  · rw [Bool.not_eq_true] at ht
    simp only [ht, Bool.false_eq_true, if_false]
    rfl

theorem valid_message_falsy (m : Json) (hm : m.truthy = false) :
    MCPProxy.is_valid_jsonrpc_message m = false := by
  cases m with
  | obj kvs =>
    cases kvs with
    | nil => rfl
    | cons hd tl => simp [Json.truthy] at hm
  | null => rfl
  | bool b => rfl
  | num n => rfl
  | str s => rfl
  | arr xs => rfl

theorem valid_message_nonobj (m : Json) (hm : ∀ okvs, m ≠ Json.obj okvs) :
    MCPProxy.is_valid_jsonrpc_message m = false := by
  cases m with
  | obj okvs => exact absurd rfl (hm okvs)
  | null => rfl
  | bool b => rfl
  | num n => rfl
  | str s => rfl
  | arr xs => rfl

theorem forward_nonobj (st : ProxyState) (server_name : String) (m : Json)
    (hm : ∀ okvs, m ≠ Json.obj okvs) :
    MCPProxy.forward_to_server st server_name m =
      (if m.truthy then .error () else .ok .null) := by
  have hval := valid_message_nonobj m hm
  have hce : ∀ (c : Int) (s : String), MCPProxy.create_error_response m c s =
      (if m.truthy then .error () else .ok .null) :=
    fun c s => create_error_nonobj m c s hm
  unfold MCPProxy.forward_to_server
  cases hpy : lookupKV st.python_servers server_name with
  | some ps =>
    simp only [hval, Bool.not_false, if_true]
    exact hce (-32600) "Invalid Request"
  | none =>
    cases hep : lookupKV st.active_processes server_name with
    | none => exact hce (-32001) _
    | some proc =>
      simp only [hval, Bool.not_false, if_true]
      exact hce (-32600) "Invalid Request"

/-- An embedded backend's `handle_request` answers a message whose id
is absent/null with `None` for every method except `tools/list` —
`initialize` errors into a `None` error response (dead
`get_server_info`), `tools/call` errors into `None` (dead
`call_tool`), unknown methods error into `None`. -/
theorem handle_request_notification_silent (ps : PythonMCPServer)
    (kvs : List (String × Json)) (hid : dgetKV kvs "id" = Json.null)
    (hm : dgetKV kvs "method" ≠ .str "tools/list") :
    ps.handle_request (.obj kvs) = .ok .null := by
  unfold PythonMCPServer.handle_request
  simp only [hid]
  by_cases h1 : dgetKV kvs "method" = .str "initialize"
  · rw [if_pos h1]
    rfl
  · rw [if_neg h1, if_neg hm]
    by_cases h3 : dgetKV kvs "method" = .str "tools/call"
    · rw [if_pos h3]
      cases hp : (lookupKV kvs "params").getD (.obj []) with
      | obj pkvs =>
        simp [py_handle_tool_call, dget, dgetD, hp, py_create_error_response]
      | null => simp [py_handle_tool_call, dget, dgetD, hp, py_create_error_response]
      | bool b => simp [py_handle_tool_call, dget, dgetD, hp, py_create_error_response]
      | num n => simp [py_handle_tool_call, dget, dgetD, hp, py_create_error_response]
      | str s => simp [py_handle_tool_call, dget, dgetD, hp, py_create_error_response]
      | arr xs => simp [py_handle_tool_call, dget, dgetD, hp, py_create_error_response]
    · rw [if_neg h3]
      rfl

/-- Forwarding a dict message whose id is absent/null and whose method
is not `tools/list` produces `None`, provided a running external child
stays silent on id-less messages. -/
theorem forward_notification_silent (st : ProxyState) (server_name : String)
    (mkvs : List (String × Json)) (hid : dgetKV mkvs "id" = Json.null)
    (hm : dgetKV mkvs "method" ≠ .str "tools/list")
    (hext : ∀ proc, lookupKV st.active_processes server_name = some proc →
        (proc.reply (.obj mkvs)).truthy = false) :
    MCPProxy.forward_to_server st server_name (.obj mkvs) = .ok .null := by
  unfold MCPProxy.forward_to_server
  cases hpy : lookupKV st.python_servers server_name with
  | some ps =>
    by_cases hval : MCPProxy.is_valid_jsonrpc_message (.obj mkvs) = true
    · simp only [hval, Bool.not_true, Bool.false_eq_true, if_false,
        handle_request_notification_silent ps mkvs hid hm]
      simp only [MCPProxy.is_valid_jsonrpc_response, Bool.not_false, if_true]
      exact create_error_obj_id_null mkvs (-32603) "Internal error" hid
    · rw [Bool.not_eq_true] at hval
      simp only [hval, Bool.not_false, if_true]
      exact create_error_obj_id_null mkvs (-32600) "Invalid Request" hid
  | none =>
    cases hep : lookupKV st.active_processes server_name with
    | none => exact create_error_obj_id_null mkvs (-32001) _ hid
    | some proc =>
      by_cases hval : MCPProxy.is_valid_jsonrpc_message (.obj mkvs) = true
      · simp only [hval, Bool.not_true, Bool.false_eq_true, if_false,
          hext proc hep]
        exact create_error_obj_id_null mkvs (-32003)
          "No response from server (timeout)" hid
      · rw [Bool.not_eq_true] at hval
        simp only [hval, Bool.not_false, if_true]
        exact create_error_obj_id_null mkvs (-32600) "Invalid Request" hid

/-- The tail of a routed tools/call writes nothing for a notification,
whatever the before-pipeline produced, as long as an object-shaped
rewritten request still has a null id and a non-`tools/list` method
and external children stay silent on id-less messages. -/
theorem after_forward_notification_silent (st : ProxyState)
    (kvs : List (String × Json)) (server_name : String)
    (tool_name processed : Json)
    (hid : dgetKV kvs "id" = Json.null)
    (hproc : ∀ rkvs, processed = Json.obj rkvs →
        dgetKV rkvs "id" = Json.null ∧ dgetKV rkvs "method" ≠ .str "tools/list")
    (hext : ∀ proc, lookupKV st.active_processes server_name = some proc →
        ∀ (mkvs : List (String × Json)), dgetKV mkvs "id" = Json.null →
          (proc.reply (.obj mkvs)).truthy = false) :
    MCPProxy.client_write (MCPProxy.after_forward_stage st (.obj kvs)
      server_name tool_name processed) = none := by
  have hoknull : MCPProxy.forward_to_server st server_name processed = .ok .null →
      MCPProxy.client_write (MCPProxy.after_forward_stage st (.obj kvs)
        server_name tool_name processed) = none := by
    intro hfwd
    unfold MCPProxy.after_forward_stage
    simp only [hfwd, if_true]
    rw [create_error_obj_id_null kvs (-32003) "No response from server" hid]
    rfl
  have herror : MCPProxy.forward_to_server st server_name processed = .error () →
      MCPProxy.client_write (MCPProxy.after_forward_stage st (.obj kvs)
        server_name tool_name processed) = none := by
    intro hfwd
    unfold MCPProxy.after_forward_stage
    simp only [hfwd]
    rfl
  cases processed with
  | obj rkvs =>
    obtain ⟨hrid, hrm⟩ := hproc rkvs rfl
    exact hoknull (forward_notification_silent st server_name rkvs hrid hrm
      (fun proc hp => hext proc hp rkvs hrid))
  | null =>
    exact hoknull (by
      rw [forward_nonobj st server_name .null (fun okvs h => Json.noConfusion h)]
      rfl)
  | bool b =>
    cases b with
    | false =>
      exact hoknull (by
        rw [forward_nonobj st server_name (.bool false)
          (fun okvs h => Json.noConfusion h)]
        rfl)
    | true =>
      exact herror (by
        rw [forward_nonobj st server_name (.bool true)
          (fun okvs h => Json.noConfusion h)]
        rfl)
  | num n =>
    by_cases hn : Json.truthy (.num n) = true
    · exact herror (by
        rw [forward_nonobj st server_name (.num n)
          (fun okvs h => Json.noConfusion h)]
        simp [hn])
    · rw [Bool.not_eq_true] at hn
      exact hoknull (by
        rw [forward_nonobj st server_name (.num n)
          (fun okvs h => Json.noConfusion h)]
        simp [hn])
  | str s =>
    by_cases hs : Json.truthy (.str s) = true
    · exact herror (by
        rw [forward_nonobj st server_name (.str s)
          (fun okvs h => Json.noConfusion h)]
        simp [hs])
    · rw [Bool.not_eq_true] at hs
      exact hoknull (by
        rw [forward_nonobj st server_name (.str s)
          (fun okvs h => Json.noConfusion h)]
        simp [hs])
  | arr xs =>
    by_cases hx : Json.truthy (.arr xs) = true
    · exact herror (by
        rw [forward_nonobj st server_name (.arr xs)
          (fun okvs h => Json.noConfusion h)]
        simp [hx])
    · rw [Bool.not_eq_true] at hx
      exact hoknull (by
        rw [forward_nonobj st server_name (.arr xs)
          (fun okvs h => Json.noConfusion h)]
        simp [hx])

/-- **C2** (amended, proved).  The per-connection handler writes no
bytes back for a well-formed JSON-RPC notification whose method is
neither `tools/list` nor `initialize` (those two are answered even
without an id — see the counterexample), provided before-hooks keep a
rewritten request id-less and do not rewrite its method to
`tools/list`, and running external children send no reply to id-less
messages. -/
theorem notification_silence_amended (st : ProxyState) (server_name : String)
    (kvs : List (String × Json))
    (hid : dgetKV kvs "id" = Json.null)
    (hmtl : dgetKV kvs "method" ≠ .str "tools/list")
    (hmin : dgetKV kvs "method" ≠ .str "initialize")
    (hhook : ∀ (tn : Json) (rkvs : List (String × Json)),
        MCPProxy.process_server_interceptors_before st.servers (.obj kvs)
          server_name tn = .obj rkvs →
        dgetKV rkvs "id" = Json.null ∧ dgetKV rkvs "method" ≠ .str "tools/list")
    (hext : ∀ proc, lookupKV st.active_processes server_name = some proc →
        ∀ (mkvs : List (String × Json)), dgetKV mkvs "id" = Json.null →
          (proc.reply (.obj mkvs)).truthy = false) :
    MCPProxy.client_write
      (MCPProxy.handle_message_for_server st (.obj kvs) server_name) = none := by
  unfold MCPProxy.handle_message_for_server
  simp only [dget]
  rw [if_neg hmtl]
  by_cases h3 : dgetKV kvs "method" = .str "tools/call"
  · rw [if_pos h3]
    unfold MCPProxy.route_tool_call_to_server
    simp only [dgetD]
    cases hp : (lookupKV kvs "params").getD (.obj []) with
    | obj pkvs =>
      simp only [dget]
      by_cases ht : (dgetKV pkvs "name").truthy = true
      · simp only [ht, Bool.not_true, Bool.false_eq_true, if_false]
        by_cases ha : MCPProxy.is_tool_allowed st.servers server_name
            (dgetKV pkvs "name") = true
        · simp only [ha, Bool.not_true, Bool.false_eq_true, if_false]
          by_cases hz : MCPProxy.process_server_interceptors_before st.servers
              (.obj kvs) server_name (dgetKV pkvs "name") = Json.null
          · rw [if_pos hz]
            rw [create_error_obj_id_null kvs (-32001)
              "Tool call blocked by interceptor" hid]
            rfl
          · rw [if_neg hz]
            exact after_forward_notification_silent st kvs server_name
              (dgetKV pkvs "name")
              (MCPProxy.process_server_interceptors_before st.servers
                (.obj kvs) server_name (dgetKV pkvs "name"))
              hid (fun rkvs hr => hhook (dgetKV pkvs "name") rkvs hr) hext
        · rw [Bool.not_eq_true] at ha
          simp only [ha, Bool.not_false, if_true]
          rw [create_error_obj_id_null kvs (-32001) "Tool not allowed" hid]
          rfl
      · rw [Bool.not_eq_true] at ht
        simp only [ht, Bool.not_false, if_true]
        rw [create_error_obj_id_null kvs (-32602) "Missing tool name" hid]
        rfl
    | null => rfl
    | bool b => rfl
    | num n => rfl
    | str s => rfl
    | arr xs => rfl
  · rw [if_neg h3, if_neg hmin]
    rw [forward_notification_silent st server_name kvs hid hmtl
      (fun proc hp => hext proc hp kvs hid)]
    rfl

/-- C2 witness backend: an embedded server with no tools. -/
def c2w_mcp : BaseMCP := { name := "e", tools := [] }

/-- C2 witness state: the embedded backend, registered and running,
with no interceptors. -/
def c2w_state : ProxyState :=
  { servers := [("e", { name := "e", python_mcp := some c2w_mcp })],
    python_servers := [("e", { mcp := c2w_mcp })] }

/-- C2 witness notification fields: `notifications/initialized`. -/
def c2w_kvs : List (String × Json) :=
  [("jsonrpc", .str "2.0"), ("method", .str "notifications/initialized")]

/-- Witness for `notification_silence_amended`: the spec's scenario-6
notification produces zero bytes. -/
theorem notification_silence_amended_witness :
    MCPProxy.client_write
      (MCPProxy.handle_message_for_server c2w_state (.obj c2w_kvs) "e") = none :=
  notification_silence_amended c2w_state "e" c2w_kvs rfl (by decide) (by decide)
    (by
      intro tn rkvs hr
      have hobj : Json.obj c2w_kvs = Json.obj rkvs := hr
      injection hobj with h
      subst h
      exact ⟨rfl, by decide⟩)
    (by
      intro proc hp
      exact Option.noConfusion hp)

/-! ## C7 — interceptor pipeline ordering -/

theorem lookupKV_ne_nil {α : Type} (l : List (String × α)) (k : String) (x : α)
    (h : lookupKV l k = some x) : l.isEmpty = false := by
  cases l with
  | nil => cases h
  | cons a b => rfl

/-- **C7** (confirmed).  For a tools/call on a registered backend with
a specific before-hook for the tool: (i) when that hook blocks
(returns `None`) or raises, the routed result is the -32001 error with
the request's id — for EVERY wildcard hook and EVERY backend, i.e.
neither the wildcard hook nor `forward` is invoked; (ii) when the
specific hook rewrites the request to `r ≠ None`, the pipeline's value
is the wildcard hook applied to `r` (not to the original request) —
or `r` itself when no wildcard hook exists — and, when that value is
not a block, routing continues by forwarding exactly that value. -/
theorem interceptor_pipeline_spec (st : ProxyState) (server_name : String)
    (cfg : MCPServerConfig) (t : String) (hs : BeforeHook) (msg params v : Json)
    (hcfg : lookupKV st.servers server_name = some cfg)
    (hhs : lookupKV cfg.intercept_before t = some hs)
    (hparams : dgetD msg "params" (.obj []) = .ok params)
    (hname : dget params "name" = .ok (.str t))
    (htt : (Json.str t).truthy = true)
    (hallow : MCPProxy.is_tool_allowed st.servers server_name (.str t) = true)
    (hmid : dget msg "id" = .ok v) (hv : v ≠ Json.null) :
    ((hs msg server_name (.str t) = .ok .null
        ∨ hs msg server_name (.str t) = .error ()) →
      MCPProxy.route_tool_call_to_server st msg server_name =
        .ok (jsonrpcErrorObj v (-32001) "Tool call blocked by interceptor"))
    ∧ (∀ r, hs msg server_name (.str t) = .ok r → r ≠ Json.null →
        MCPProxy.process_server_interceptors_before st.servers msg server_name
            (.str t) =
          (match lookupKV cfg.intercept_before "*" with
           | none => r
           | some w =>
             match w r server_name (.str t) with
             | .error _ => Json.null
             | .ok x => if x = Json.null then Json.null else x)
        ∧ (MCPProxy.process_server_interceptors_before st.servers msg
              server_name (.str t) ≠ Json.null →
            MCPProxy.route_tool_call_to_server st msg server_name =
              MCPProxy.after_forward_stage st msg server_name (.str t)
                (MCPProxy.process_server_interceptors_before st.servers msg
                  server_name (.str t)))) := by
  obtain ⟨mkvs, rfl⟩ : ∃ mkvs, msg = Json.obj mkvs := by
    cases msg with
    | obj mkvs => exact ⟨mkvs, rfl⟩
    | null => cases hmid
    | bool b => cases hmid
    | num n => cases hmid
    | str s => cases hmid
    | arr xs => cases hmid
  have hidv : dgetKV mkvs "id" = v := by
    injection hmid
  have hne := lookupKV_ne_nil cfg.intercept_before t hs hhs
  constructor
  · intro hblock
    have hpb : MCPProxy.process_server_interceptors_before st.servers
        (.obj mkvs) server_name (.str t) = Json.null := by
      unfold MCPProxy.process_server_interceptors_before
      simp only [hcfg, hne, Bool.false_eq_true, if_false, lookupHookB, hhs]
      rcases hblock with hb | hb
      · simp only [hb, eq_self_iff_true, if_true]
      · simp only [hb]
    unfold MCPProxy.route_tool_call_to_server
    simp only [hparams, hname, htt, hallow, Bool.not_true, Bool.false_eq_true,
      if_false, hpb, if_true]
    exact create_error_obj_id_some mkvs (-32001)
      "Tool call blocked by interceptor" v hidv hv
  · intro r hr hrne
    have hpr : MCPProxy.process_server_interceptors_before st.servers
        (.obj mkvs) server_name (.str t) =
          (match lookupKV cfg.intercept_before "*" with
           | none => r
           | some w =>
             match w r server_name (.str t) with
             | .error _ => Json.null
             | .ok x => if x = Json.null then Json.null else x) := by
      unfold MCPProxy.process_server_interceptors_before
      simp only [hcfg, hne, Bool.false_eq_true, if_false, lookupHookB, hhs,
        hr, if_neg hrne]
    refine ⟨hpr, ?_⟩
    intro hprocne
    unfold MCPProxy.route_tool_call_to_server
    simp only [hparams, hname, htt, hallow, Bool.not_true, Bool.false_eq_true,
      if_false, if_neg hprocne]

/-- C7 witness specific hook: always blocks. -/
def c7w_hs : BeforeHook := fun _ _ _ => .ok .null

/-- C7 witness wildcard hook: passes the request through. -/
def c7w_wild : BeforeHook := fun r _ _ => .ok r

/-- C7 witness backend config with both hooks installed for
`navigate`. -/
def c7w_cfg : MCPServerConfig :=
  { name := "browser", command := some "c",
    intercept_before := [("navigate", c7w_hs), ("*", c7w_wild)] }

/-- C7 witness proxy state. -/
def c7w_state : ProxyState := { servers := [("browser", c7w_cfg)] }

/-- C7 witness request: `tools/call name=navigate id=4`. -/
def c7w_msg : Json :=
  .obj [("jsonrpc", .str "2.0"), ("id", .num 4), ("method", .str "tools/call"),
        ("params", .obj [("name", .str "navigate"),
          ("arguments", .obj [("url", .str "https://malicious.example/")])])]

/-- Witness for `interceptor_pipeline_spec`: the blocking specific hook
turns the call into the -32001 error with id 4. -/
theorem interceptor_pipeline_spec_witness :
    MCPProxy.route_tool_call_to_server c7w_state c7w_msg "browser" =
      .ok (jsonrpcErrorObj (.num 4) (-32001)
        "Tool call blocked by interceptor") :=
  (interceptor_pipeline_spec c7w_state "browser" c7w_cfg "navigate" c7w_hs
    c7w_msg
    (.obj [("name", .str "navigate"),
      ("arguments", .obj [("url", .str "https://malicious.example/")])])
    (.num 4) rfl rfl rfl rfl (by decide) rfl rfl (by decide)).1 (Or.inl rfl)

/-- C6 witness child: replies with a valid response matching id 9. -/
def c6w_proc : ExtProc :=
  { reply := fun _ =>
      .obj [("jsonrpc", .str "2.0"), ("id", .num 9), ("result", .obj [])] }

/-- C6 witness proxy state. -/
def c6w_state : ProxyState :=
  { servers := [("x", { name := "x", command := some "c" })],
    active_processes := [("x", c6w_proc)] }

/-- C6 witness request fields (id 9). -/
def c6w_msg_kvs : List (String × Json) :=
  [("jsonrpc", .str "2.0"), ("id", .num 9), ("method", .str "ping")]

/-- Witness for `forward_to_server_validation_spec`: a valid,
id-matching reply is returned unchanged. -/
theorem forward_to_server_validation_spec_witness :
    MCPProxy.forward_to_server c6w_state "x" (.obj c6w_msg_kvs) =
      .ok (.obj [("jsonrpc", .str "2.0"), ("id", .num 9),
                 ("result", .obj [])]) :=
  ((forward_to_server_validation_spec c6w_state "x" c6w_msg_kvs (.num 9) rfl
      (by decide) rfl).1 c6w_proc rfl rfl).2.2.2
    [("jsonrpc", .str "2.0"), ("id", .num 9), ("result", .obj [])]
    rfl rfl rfl rfl
